import Mathlib

/-!  Verification development for the VEVOR MPPT Bluetooth integration
(`bluetooth.py`, `const.py`).  The decoder, the diagnostics sampler, the
notification handler and the refresh cycle of `MPPTBLECoordinator` are
embedded as pure Lean functions.

Numeric modelling: the Python source computes scaled readings in IEEE-754
doubles (`raw * 0.1`, `raw * 0.01`, followed by `round(_, 2)`).  For every
raw integer that fits the decoded field widths, `round(raw * 0.1, 2)`
computed in doubles is exactly the double nearest to the decimal value
`raw / 10` (checked exhaustively for all 16-bit raws, and likewise for the
`0.01` scale), so the decoded quantities are modelled as exact rationals.
Python `round` is round-half-to-even and `int(_)` truncates toward zero;
both are reproduced on `ℚ` below.  -/

namespace VevorMPPT

/-- Python round-half-to-even of a rational to the nearest integer. -/
def rne (q : ℚ) : ℤ :=
  if q - ⌊q⌋ < 1/2 then ⌊q⌋
  else if (1 : ℚ)/2 < q - ⌊q⌋ then ⌊q⌋ + 1
  else if ⌊q⌋ % 2 = 0 then ⌊q⌋ else ⌊q⌋ + 1

/-- Python `round(x, n)`: round to `n` decimal digits, ties to even. -/
def pyRound (q : ℚ) (n : ℕ) : ℚ := (rne (q * 10 ^ n) : ℚ) / 10 ^ n

/-- Python `int(x)`: truncation toward zero. -/
def pyInt (q : ℚ) : ℤ := if 0 ≤ q then ⌊q⌋ else -⌊-q⌋

/-- Python slice `data[a:b]` on a byte list. -/
def pySlice (data : List ℕ) (a b : ℕ) : List ℕ := (data.drop a).take (b - a)

/-- Python `int.from_bytes(_, "big")`. -/
def fromBytesBE (l : List ℕ) : ℕ := l.foldl (fun acc b => 256 * acc + b) 0

/-- Python `data[i]`, used only where the source has already checked the
length, so the default is never taken on the source's paths. -/
def pyIndex (data : List ℕ) (i : ℕ) : ℕ := data.getD i 0

/-- const.py line 25: `MIN_DATA_LENGTH = 46`. -/
def MIN_DATA_LENGTH : ℕ := 46

/-- The dict produced by `parse_mppt_packet` (bluetooth.py lines 61-87). -/
structure ParsedData where
  solar_voltage : ℚ
  solar_current : ℚ
  solar_power : ℕ
  battery_voltage : ℚ
  battery_current : ℚ
  battery_temperature : ℚ
  load_voltage : ℚ
  load_current : ℚ
  load_power : ℕ
  charging_state : ℕ
  error_code : ℕ
  daily_energy : ℚ
  total_energy : ℚ
  max_solar_voltage : ℚ
  max_battery_voltage : ℚ
  max_charging_current : ℚ
  deriving DecidableEq

/-- The `ValueError("Data too short: ...")` raised by `parse_mppt_packet`,
carrying the expected minimum and the actual length. -/
inductive ParseError where
  | tooShort (expected got : ℕ)
  deriving DecidableEq

/-- bluetooth.py lines 27-97, `parse_mppt_packet`. -/
def parse_mppt_packet (data : List ℕ) : Except ParseError ParsedData :=
  if data.length < MIN_DATA_LENGTH then
    .error (.tooShort MIN_DATA_LENGTH data.length)
  else
    let battery_volt_raw := fromBytesBE (pySlice data 5 7)
    let battery_current_raw := fromBytesBE (pySlice data 7 9)
    let battery_temp_raw := pyIndex data 10
    let solar_volt_raw := fromBytesBE (pySlice data 17 19)
    let solar_current_raw := fromBytesBE (pySlice data 19 21)
    let solar_power_raw := fromBytesBE (pySlice data 21 23)
    let load_volt_raw := if 13 < data.length then fromBytesBE (pySlice data 11 13) else 0
    let load_current_raw := if 15 < data.length then fromBytesBE (pySlice data 13 15) else 0
    let load_power_raw := if 17 < data.length then fromBytesBE (pySlice data 15 17) else 0
    let charging_state := if 23 < data.length then pyIndex data 23 else 0
    let error_code := if 24 < data.length then pyIndex data 24 else 0
    let daily_energy_raw := if 27 < data.length then fromBytesBE (pySlice data 25 27) else 0
    let total_energy_raw := if 31 < data.length then fromBytesBE (pySlice data 27 31) else 0
    let max_solar_volt_raw :=
      if 33 < data.length then fromBytesBE (pySlice data 31 33) else solar_volt_raw
    let max_battery_volt_raw :=
      if 35 < data.length then fromBytesBE (pySlice data 33 35) else battery_volt_raw
    let max_charging_current_raw :=
      if 37 < data.length then fromBytesBE (pySlice data 35 37) else battery_current_raw
    .ok
      { solar_voltage := pyRound ((solar_volt_raw : ℚ) * (1/10)) 2
        solar_current := pyRound ((solar_current_raw : ℚ) * (1/100)) 2
        solar_power := solar_power_raw
        battery_voltage := pyRound ((battery_volt_raw : ℚ) * (1/10)) 2
        battery_current := pyRound ((battery_current_raw : ℚ) * (1/100)) 2
        battery_temperature := pyRound (battery_temp_raw : ℚ) 1
        load_voltage := pyRound ((load_volt_raw : ℚ) * (1/10)) 2
        load_current := pyRound ((load_current_raw : ℚ) * (1/100)) 2
        load_power := load_power_raw
        charging_state := charging_state
        error_code := error_code
        daily_energy := pyRound ((daily_energy_raw : ℚ) * (1/100)) 2
        total_energy := pyRound ((total_energy_raw : ℚ) * (1/100)) 2
        max_solar_voltage := pyRound ((max_solar_volt_raw : ℚ) * (1/10)) 2
        max_battery_voltage := pyRound ((max_battery_volt_raw : ℚ) * (1/10)) 2
        max_charging_current := pyRound ((max_charging_current_raw : ℚ) * (1/100)) 2 }

/-- The Bluetooth diagnostics dict (bluetooth.py lines 122-125); a `none`
field models a key left at Python `None`. -/
structure Diagnostics where
  link_quality : Option ℤ
  signal_strength : Option ℤ
  deriving DecidableEq

/-- bluetooth.py lines 120-154, `_get_bluetooth_diagnostics`.  The argument
is the advertisement RSSI when an observation for the address is available,
`none` otherwise (no service info, RSSI `None`, or a lookup error). -/
def get_bluetooth_diagnostics (rssi : Option ℤ) : Diagnostics :=
  match rssi with
  | none => { link_quality := none, signal_strength := none }
  | some r =>
    let link_quality : ℤ :=
      if -30 ≤ r then 100
      else if r ≤ -90 then 0
      else pyInt (((r : ℚ) + 90) / 60 * 100)
    { link_quality := some (max 0 (min 100 link_quality))
      signal_strength := some r }

/-- A decoded record together with the merged diagnostics keys, as stored
in `_latest_data`.  The readable-characteristic sweep stores a record with
no diagnostics keys; that is modelled by both diagnostics fields `none`. -/
structure PublishedData where
  reading : ParsedData
  diag : Diagnostics
  deriving DecidableEq

/-- A `BleakClient` handle: an identity and its connection status. -/
structure Client where
  id : ℕ
  connected : Bool
  deriving DecidableEq

/-- The coordinator state read and written by the refresh cycle and the
notification handler: `_client`, `_latest_data`, `_notification_received`. -/
structure CoordState where
  client : Option Client
  latest : Option PublishedData
  notifEvent : Bool
  deriving DecidableEq

/-- spec §6 `getLatest()`: the latest record cached by the session. -/
def getLatest (st : CoordState) : Option PublishedData := st.latest

/-- bluetooth.py lines 187-210, `notification_handler`.  Returns the new
coordinator state and whether `async_set_updated_data` published a record. -/
def notification_handler (data : List ℕ) (rssi : Option ℤ) (st : CoordState) :
    CoordState × Bool :=
  if data.length < 23 then
    ({ st with notifEvent := true }, false)
  else
    match parse_mppt_packet data with
    | .ok r =>
      ({ st with
          latest := some { reading := r, diag := get_bluetooth_diagnostics rssi }
          notifEvent := true }, true)
    | .error _ => ({ st with notifEvent := true }, false)

/-- One refresh cycle's environment: what the Bluetooth world does at each
await point of `_async_update_data`. -/
structure CycleEnv where
  deviceFound : Bool
  rssi : Option ℤ
  fastCmdOk : Bool
  fastFrame : Option (List ℕ)
  connectOk : Bool
  newClientId : ℕ
  notifyCharFound : Bool
  writeCharFound : Bool
  triggerFrames : List (Option (List ℕ))
  readFrames : List (List ℕ)
  finalFrame : Option (List ℕ)

/-- The `UpdateFailed` outcomes of `_async_update_data` that the embedded
environment can reach. -/
inductive UpdateErr where
  | deviceNotFound
  | notifyCharNotFound
  deriving DecidableEq

/-- bluetooth.py lines 330-348, the trigger-command loop.  Each iteration
writes one command then clears `_notification_received` and waits up to
`RESPONSE_TIMEOUT`; a frame delivered during the wait runs the notification
handler, and the loop returns `_latest_data` early when it is truthy. -/
def triggerLoop (rssi : Option ℤ) : List (Option (List ℕ)) → CoordState →
    Option PublishedData × CoordState
  | [], st => (none, st)
  | f :: rest, st =>
    let st1 : CoordState := { st with notifEvent := false }
    match f with
    | none => triggerLoop rssi rest st1
    | some frame =>
      let st2 := (notification_handler frame rssi st1).1
      match st2.latest with
      | some d => (some d, st2)
      | none => triggerLoop rssi rest st2

/-- bluetooth.py lines 350-370, the readable-characteristic sweep: the first
payload of length ≥ 23 that parses becomes `_latest_data` (stored without a
diagnostics merge, as in the source) and is returned. -/
def readLoop : List (List ℕ) → CoordState → Option PublishedData × CoordState
  | [], st => (none, st)
  | d :: rest, st =>
    if 23 ≤ d.length then
      match parse_mppt_packet d with
      | .ok r =>
        let pub : PublishedData :=
          { reading := r, diag := { link_quality := none, signal_strength := none } }
        (some pub, { st with latest := some pub })
      | .error _ => readLoop rest st
    else readLoop rest st

/-- bluetooth.py lines 238-385: drop any stale client, connect a fresh one
(failure or timeout returns `None` without a hard failure), resolve the
notify characteristic, then run the trigger loop, the readable sweep and the
final 30-second wait.  When everything stays silent the cycle ends with
`return None` and the fresh client is kept (lines 383-385). -/
def reconnectAndFetch (env : CycleEnv) (st : CoordState) :
    Except UpdateErr (Option PublishedData) × CoordState :=
  let st1 : CoordState := { st with client := none }
  if ¬ env.connectOk then (.ok none, st1)
  else
    let st2 : CoordState :=
      { st1 with client := some { id := env.newClientId, connected := true } }
    if ¬ env.notifyCharFound then
      (.error .notifyCharNotFound, { st2 with client := none })
    else
      let res3 :=
        if env.writeCharFound then triggerLoop env.rssi env.triggerFrames st2
        else (none, st2)
      match res3 with
      | (some d, st3) => (.ok (some d), st3)
      | (none, st3) =>
        match readLoop env.readFrames st3 with
        | (some d, st4) => (.ok (some d), st4)
        | (none, st4) =>
          let st5 : CoordState := { st4 with notifEvent := false }
          match env.finalFrame with
          | some frame =>
            let st6 := (notification_handler frame env.rssi st5).1
            match st6.latest with
            | some d => (.ok (some d), st6)
            | none => (.ok none, st6)
          | none => (.ok none, st5)

/-- bluetooth.py lines 212-404, `_async_update_data`: one refresh cycle,
returning the coordinator result and the final coordinator state.  When a
live client exists the cycle first sends the periodic command and waits
5 seconds (lines 227-236), falling back to a full reconnect on timeout. -/
def async_update_data (env : CycleEnv) (st : CoordState) :
    Except UpdateErr (Option PublishedData) × CoordState :=
  if ¬ env.deviceFound then
    (.error .deviceNotFound, st)
  else
    match st.client with
    | some c =>
      if c.connected then
        let st1 := if env.fastCmdOk then { st with notifEvent := false } else st
        match env.fastFrame with
        | some frame =>
          let st2 := (notification_handler frame env.rssi st1).1
          (.ok st2.latest, st2)
        | none => reconnectAndFetch env st1
      else reconnectAndFetch env st
    | none => reconnectAndFetch env st

/-- Atomic actions on `_notification_received` around one trigger command
(bluetooth.py lines 333-338). -/
inductive SigAct where
  | write
  | clear
  | frame

/-- The event state after a sequence of actions: `write` leaves it alone,
`clear` resets it, a delivered `frame` sets it (every handler path). -/
def runSignal : Bool → List SigAct → Bool
  | s, [] => s
  | s, SigAct.write :: rest => runSignal s rest
  | _, SigAct.clear :: rest => runSignal false rest
  | _, SigAct.frame :: rest => runSignal true rest

/-- The source's per-command order: the command write (line 333) comes
first, the clear (line 336) second; the wait (line 338) is entered right
after the last action. -/
def triggerCmdActs : List SigAct := [SigAct.write, SigAct.clear]

/-- Event state observed at wait-entry when the device's frame is delivered
at position `pos` of the per-command sequence (`pos = 0`: before the write;
`pos = 1`: between write and clear; `pos = 2`: after the clear). -/
def signalAtWaitEntry (s0 : Bool) (pos : ℕ) : Bool :=
  runSignal s0 (triggerCmdActs.insertIdx pos SigAct.frame)

/-- The spec §8 literal 23-byte buffer
`00 00 00 00 00 64 00 0A 00 00 01 00 00 00 00 00 00 96 00 32 00 E8 03`. -/
def lit23 : List ℕ :=
  [0x00, 0x00, 0x00, 0x00, 0x00, 0x64, 0x00, 0x0A, 0x00, 0x00, 0x01, 0x00,
   0x00, 0x00, 0x00, 0x00, 0x00, 0x96, 0x00, 0x32, 0x00, 0xE8, 0x03]

/-- The spec §8 buffer padded with zero bytes to the 46-byte minimum. -/
def lit46 : List ℕ := lit23 ++ List.replicate 23 0

/-- The spec §8 buffer with each two-byte field re-encoded big-endian (the
byte order `parse_mppt_packet` actually reads), padded to 46 bytes. -/
def lit46be : List ℕ :=
  [0x00, 0x00, 0x00, 0x00, 0x00, 0x00, 0x64, 0x00, 0x0A, 0x00, 0x01, 0x00,
   0x00, 0x00, 0x00, 0x00, 0x00, 0x00, 0x96, 0x00, 0x32, 0x03, 0xE8] ++
  List.replicate 23 0

/-- A 46-byte buffer whose temperature byte (offset 10) has the high bit
set: `data[10] = 0x80`. -/
def tempHighBuf : List ℕ := List.replicate 10 0 ++ [0x80] ++ List.replicate 35 0

/-- Record used as a pre-existing "latest" value in witness states. -/
def zeroRec : ParsedData :=
  { solar_voltage := 0, solar_current := 0, solar_power := 0
    battery_voltage := 0, battery_current := 0, battery_temperature := 0
    load_voltage := 0, load_current := 0, load_power := 0
    charging_state := 0, error_code := 0, daily_energy := 0, total_energy := 0
    max_solar_voltage := 0, max_battery_voltage := 0, max_charging_current := 0 }

/-- A published record carried over from a previous cycle, for witnesses. -/
def pubW : PublishedData :=
  { reading := zeroRec, diag := { link_quality := none, signal_strength := none } }

/-- A disconnected coordinator state holding a previous record. -/
def stW : CoordState := { client := none, latest := some pubW, notifEvent := false }

/-- The record decoded from `tempHighBuf`: every field zero except the
temperature byte, which reads as the unsigned value 0x80 = 128. -/
def tempHighRec : ParsedData :=
  { solar_voltage := 0, solar_current := 0, solar_power := 0
    battery_voltage := 0, battery_current := 0, battery_temperature := 128
    load_voltage := 0, load_current := 0, load_power := 0
    charging_state := 0, error_code := 0, daily_energy := 0, total_energy := 0
    max_solar_voltage := 0, max_battery_voltage := 0, max_charging_current := 0 }

/-- Environment of a cycle in which the device address is not found. -/
def envNotFound : CycleEnv :=
  { deviceFound := false, rssi := none, fastCmdOk := false, fastFrame := none
    connectOk := false, newClientId := 0, notifyCharFound := false
    writeCharFound := false, triggerFrames := [], readFrames := []
    finalFrame := none }

/-- Environment of a cycle in which the connect attempt times out. -/
def envConnectFail : CycleEnv :=
  { deviceFound := true, rssi := none, fastCmdOk := false, fastFrame := none
    connectOk := false, newClientId := 1, notifyCharFound := false
    writeCharFound := false, triggerFrames := [], readFrames := []
    finalFrame := none }

/-- Environment of a cycle that connects and subscribes but never receives
a frame: all four trigger waits, the readable sweep and the final wait stay
silent. -/
def envSilent : CycleEnv :=
  { deviceFound := true, rssi := none, fastCmdOk := false, fastFrame := none
    connectOk := true, newClientId := 2, notifyCharFound := true
    writeCharFound := true, triggerFrames := [none, none, none, none]
    readFrames := [], finalFrame := none }

lemma rne_intCast (m : ℤ) : rne (m : ℚ) = m := by
  simp [rne]

lemma pyRound_tenth (n : ℕ) : pyRound ((n : ℚ) * (1/10)) 2 = (n : ℚ) / 10 := by
  have h : ((n : ℚ) * (1/10)) * 10 ^ 2 = (((10 * n : ℕ) : ℤ) : ℚ) := by push_cast; ring
  rw [pyRound, h, rne_intCast]
  push_cast
  ring

lemma pyRound_hundredth (n : ℕ) : pyRound ((n : ℚ) * (1/100)) 2 = (n : ℚ) / 100 := by
  have h : ((n : ℚ) * (1/100)) * 10 ^ 2 = (((n : ℕ) : ℤ) : ℚ) := by push_cast; ring
  rw [pyRound, h, rne_intCast]
  push_cast
  ring

lemma pyRound_natCast_one (n : ℕ) : pyRound ((n : ℕ) : ℚ) 1 = (n : ℚ) := by
  have h : ((n : ℚ)) * 10 ^ 1 = (((10 * n : ℕ) : ℤ) : ℚ) := by push_cast; ring
  rw [pyRound, h, rne_intCast]
  push_cast
  ring

/-- Evaluation of the decoder on any buffer that passes the length check:
every conditional in the source is then in its "present" branch, and every
`pyRound` is exact. -/
lemma parse_mppt_packet_long (data : List ℕ) (h : MIN_DATA_LENGTH ≤ data.length) :
    parse_mppt_packet data = .ok
      { solar_voltage := (fromBytesBE (pySlice data 17 19) : ℚ) / 10
        solar_current := (fromBytesBE (pySlice data 19 21) : ℚ) / 100
        solar_power := fromBytesBE (pySlice data 21 23)
        battery_voltage := (fromBytesBE (pySlice data 5 7) : ℚ) / 10
        battery_current := (fromBytesBE (pySlice data 7 9) : ℚ) / 100
        battery_temperature := (pyIndex data 10 : ℚ)
        load_voltage := (fromBytesBE (pySlice data 11 13) : ℚ) / 10
        load_current := (fromBytesBE (pySlice data 13 15) : ℚ) / 100
        load_power := fromBytesBE (pySlice data 15 17)
        charging_state := pyIndex data 23
        error_code := pyIndex data 24
        daily_energy := (fromBytesBE (pySlice data 25 27) : ℚ) / 100
        total_energy := (fromBytesBE (pySlice data 27 31) : ℚ) / 100
        max_solar_voltage := (fromBytesBE (pySlice data 31 33) : ℚ) / 10
        max_battery_voltage := (fromBytesBE (pySlice data 33 35) : ℚ) / 10
        max_charging_current := (fromBytesBE (pySlice data 35 37) : ℚ) / 100 } := by
  have h46 : 46 ≤ data.length := h
  have hlt : ¬ data.length < MIN_DATA_LENGTH := by
    simp only [MIN_DATA_LENGTH]
    omega
  simp only [parse_mppt_packet, if_neg hlt,
    if_pos (show 13 < data.length by omega),
    if_pos (show 15 < data.length by omega),
    if_pos (show 17 < data.length by omega),
    if_pos (show 23 < data.length by omega),
    if_pos (show 24 < data.length by omega),
    if_pos (show 27 < data.length by omega),
    if_pos (show 31 < data.length by omega),
    if_pos (show 33 < data.length by omega),
    if_pos (show 35 < data.length by omega),
    if_pos (show 37 < data.length by omega),
    pyRound_tenth, pyRound_hundredth, pyRound_natCast_one]

/-- When every trigger wait times out, the trigger loop returns nothing and
leaves `_latest_data` and `_client` untouched. -/
lemma triggerLoop_all_none (rssi : Option ℤ) (frames : List (Option (List ℕ)))
    (st : CoordState) (h : ∀ f ∈ frames, f = none) :
    (triggerLoop rssi frames st).1 = none ∧
    (triggerLoop rssi frames st).2.latest = st.latest ∧
    (triggerLoop rssi frames st).2.client = st.client := by
  induction frames generalizing st with
  | nil => simp [triggerLoop]
  | cons f rest ih =>
    have hf : f = none := h f (by simp)
    subst hf
    simp only [triggerLoop]
    exact ih { st with notifEvent := false } (fun g hg => h g (by simp [hg]))

/-- Decoding the high-bit temperature buffer. -/
lemma parse_tempHighBuf : parse_mppt_packet tempHighBuf = .ok tempHighRec := by
  rw [parse_mppt_packet_long tempHighBuf (by decide)]
  norm_num [tempHighRec,
    show fromBytesBE (pySlice tempHighBuf 5 7) = 0 from by decide,
    show fromBytesBE (pySlice tempHighBuf 7 9) = 0 from by decide,
    show pyIndex tempHighBuf 10 = 128 from by decide,
    show fromBytesBE (pySlice tempHighBuf 17 19) = 0 from by decide,
    show fromBytesBE (pySlice tempHighBuf 19 21) = 0 from by decide,
    show fromBytesBE (pySlice tempHighBuf 21 23) = 0 from by decide,
    show fromBytesBE (pySlice tempHighBuf 11 13) = 0 from by decide,
    show fromBytesBE (pySlice tempHighBuf 13 15) = 0 from by decide,
    show fromBytesBE (pySlice tempHighBuf 15 17) = 0 from by decide,
    show pyIndex tempHighBuf 23 = 0 from by decide,
    show pyIndex tempHighBuf 24 = 0 from by decide,
    show fromBytesBE (pySlice tempHighBuf 25 27) = 0 from by decide,
    show fromBytesBE (pySlice tempHighBuf 27 31) = 0 from by decide,
    show fromBytesBE (pySlice tempHighBuf 31 33) = 0 from by decide,
    show fromBytesBE (pySlice tempHighBuf 33 35) = 0 from by decide,
    show fromBytesBE (pySlice tempHighBuf 35 37) = 0 from by decide]

/-- C1 counterexample: the spec's literal 23-byte buffer is rejected by the
decoder outright, because `MIN_DATA_LENGTH` is 46, so it cannot decode to
any record, let alone the claimed one. -/
theorem lit23_decode_fails :
    parse_mppt_packet lit23 = Except.error (ParseError.tooShort 46 23) := rfl

/-- C1 amended: the literal buffer zero-padded to the 46-byte minimum does
decode, but the two-byte fields are read big-endian, giving battery voltage
2560.0, battery current 25.60, solar voltage 3840.0, solar current 128.0
and solar power 59395; re-encoding each two-byte field big-endian (and
padding) yields exactly the originally claimed values 10.0, 0.10, 15.0,
0.50 and 1000. -/
theorem lit46_and_lit46be_decode :
    (∃ r, parse_mppt_packet lit46 = Except.ok r ∧
      r.battery_voltage = 2560 ∧ r.battery_current = 128/5 ∧
      r.solar_voltage = 3840 ∧ r.solar_current = 128 ∧
      r.solar_power = 59395) ∧
    (∃ r, parse_mppt_packet lit46be = Except.ok r ∧
      r.battery_voltage = 10 ∧ r.battery_current = 1/10 ∧
      r.solar_voltage = 15 ∧ r.solar_current = 1/2 ∧
      r.solar_power = 1000) := by
  constructor
  · rw [parse_mppt_packet_long lit46 (by decide)]
    refine ⟨_, rfl, ?_, ?_, ?_, ?_, ?_⟩ <;>
      norm_num [show fromBytesBE (pySlice lit46 5 7) = 25600 from by decide,
        show fromBytesBE (pySlice lit46 7 9) = 2560 from by decide,
        show fromBytesBE (pySlice lit46 17 19) = 38400 from by decide,
        show fromBytesBE (pySlice lit46 19 21) = 12800 from by decide,
        show fromBytesBE (pySlice lit46 21 23) = 59395 from by decide]
  · rw [parse_mppt_packet_long lit46be (by decide)]
    refine ⟨_, rfl, ?_, ?_, ?_, ?_, ?_⟩ <;>
      norm_num [show fromBytesBE (pySlice lit46be 5 7) = 100 from by decide,
        show fromBytesBE (pySlice lit46be 7 9) = 10 from by decide,
        show fromBytesBE (pySlice lit46be 17 19) = 150 from by decide,
        show fromBytesBE (pySlice lit46be 19 21) = 50 from by decide,
        show fromBytesBE (pySlice lit46be 21 23) = 1000 from by decide]

/-- C2 counterexample: a buffer of length 23 — at the threshold the claim
says is accepted — is rejected with the too-short error. -/
theorem length23_buffer_rejected :
    lit23.length = 23 ∧
    parse_mppt_packet lit23 = Except.error (ParseError.tooShort MIN_DATA_LENGTH 23) :=
  ⟨rfl, rfl⟩

/-- C2 amended: the decoder fails with the too-short error exactly when the
buffer is shorter than `MIN_DATA_LENGTH` = 46 bytes, and succeeds exactly
when the buffer has at least 46 bytes. -/
theorem tooShort_iff (data : List ℕ) :
    (parse_mppt_packet data =
        Except.error (ParseError.tooShort MIN_DATA_LENGTH data.length) ↔
      data.length < MIN_DATA_LENGTH) ∧
    ((∃ r, parse_mppt_packet data = Except.ok r) ↔
      MIN_DATA_LENGTH ≤ data.length) := by
  by_cases h : data.length < MIN_DATA_LENGTH
  · constructor
    · simp [parse_mppt_packet, h]
    · rw [parse_mppt_packet, if_pos h]
      simp only [MIN_DATA_LENGTH] at h ⊢
      constructor
      · rintro ⟨r, hr⟩
        exact absurd hr (by simp)
      · omega
  · constructor
    · rw [parse_mppt_packet_long data (by omega)]
      simp only [MIN_DATA_LENGTH] at h ⊢
      constructor
      · intro hr
        exact absurd hr (by simp)
      · omega
    · constructor
      · intro _
        omega
      · intro _
        exact ⟨_, parse_mppt_packet_long data (by omega)⟩

/-- C9: every buffer that passes the minimum-length check decodes to a
record — no extended-layout field can fail the decode (with the 46-byte
check every extended offset, the largest being 37, is in range, and each
out-of-range default branch is embedded in the definition). -/
theorem long_buffer_always_decodes (data : List ℕ)
    (h : MIN_DATA_LENGTH ≤ data.length) :
    ∃ r, parse_mppt_packet data = Except.ok r :=
  ⟨_, parse_mppt_packet_long data h⟩

/-- C9 witness: the padded literal buffer decodes. -/
theorem long_buffer_always_decodes_witness :
    ∃ r, parse_mppt_packet lit46 = Except.ok r :=
  long_buffer_always_decodes lit46 (by decide)

/-- C4: the diagnostics sampler maps an absent observation to both fields
absent; a present RSSI `r` is reported verbatim, and the link quality is
exactly 100 for `r ≥ −30`, exactly 0 for `r ≤ −90`, the truncated linear
interpolation `(r + 90)·100/60` strictly between, and always within
0..100. -/
theorem link_quality_spec (r : ℤ) :
    (get_bluetooth_diagnostics none =
      { link_quality := none, signal_strength := none }) ∧
    ((get_bluetooth_diagnostics (some r)).signal_strength = some r) ∧
    (-30 ≤ r → (get_bluetooth_diagnostics (some r)).link_quality = some 100) ∧
    (r ≤ -90 → (get_bluetooth_diagnostics (some r)).link_quality = some 0) ∧
    (-90 < r → r < -30 →
      (get_bluetooth_diagnostics (some r)).link_quality =
        some ((r + 90) * 100 / 60)) ∧
    (∀ q, (get_bluetooth_diagnostics (some r)).link_quality = some q →
      0 ≤ q ∧ q ≤ 100) := by
  refine ⟨rfl, rfl, ?_, ?_, ?_, ?_⟩
  · intro h
    simp [get_bluetooth_diagnostics, if_pos h]
  · intro h
    by_cases h30 : -30 ≤ r
    · simp [get_bluetooth_diagnostics, if_pos h30]
      omega
    · simp [get_bluetooth_diagnostics, if_neg h30, if_pos h]
  · intro h1 h2
    have h30 : ¬ -30 ≤ r := by omega
    have h90 : ¬ r ≤ -90 := by omega
    simp only [get_bluetooth_diagnostics, if_neg h30, if_neg h90]
    have hnn : (0 : ℚ) ≤ ((r : ℚ) + 90) / 60 * 100 := by
      have hp : (0 : ℚ) ≤ (r : ℚ) + 90 := by
        have hc : ((0 : ℤ) : ℚ) ≤ ((r + 90 : ℤ) : ℚ) :=
          by exact_mod_cast (by omega : (0:ℤ) ≤ r + 90)
        push_cast at hc
        linarith
      have := mul_nonneg (div_nonneg hp (by norm_num : (0:ℚ) ≤ 60))
        (by norm_num : (0:ℚ) ≤ 100)
      linarith
    have hv : ((r : ℚ) + 90) / 60 * 100 =
        (((r + 90) * 100 : ℤ) : ℚ) / ((60 : ℕ) : ℚ) := by
      push_cast
      ring
    rw [pyInt, if_pos hnn, hv, Rat.floor_intCast_div_natCast]
    congr 1
    omega
  · intro q hq
    simp only [get_bluetooth_diagnostics, Option.some.injEq] at hq
    omega

/-- C4 witness: the spec's sample points −60 → 50, −10 → 100, −120 → 0,
and the absent observation. -/
theorem link_quality_spec_witness :
    get_bluetooth_diagnostics none =
      { link_quality := none, signal_strength := none } ∧
    (get_bluetooth_diagnostics (some (-60))).link_quality = some 50 ∧
    (get_bluetooth_diagnostics (some (-10))).link_quality = some 100 ∧
    (get_bluetooth_diagnostics (some (-120))).link_quality = some 0 :=
  ⟨(link_quality_spec 0).1,
   ((link_quality_spec (-60)).2.2.2.2.1 (by decide) (by decide)).trans (by decide),
   (link_quality_spec (-10)).2.2.1 (by decide),
   (link_quality_spec (-120)).2.2.2.1 (by decide)⟩

/-- C5: a frame shorter than 23 bytes leaves the stored latest record
untouched and publishes nothing — the handler only sets the response-ready
signal. -/
theorem short_frame_only_signals (data : List ℕ) (rssi : Option ℤ)
    (st : CoordState) (h : data.length < 23) :
    notification_handler data rssi st = ({ st with notifEvent := true }, false) ∧
    getLatest (notification_handler data rssi st).1 = getLatest st := by
  constructor
  · simp [notification_handler, h]
  · simp [notification_handler, h, getLatest]

/-- C5 witness: a two-byte acknowledgement frame on a state holding a
previous record. -/
theorem short_frame_only_signals_witness :
    notification_handler [0xFF, 0x03] none stW =
      ({ stW with notifEvent := true }, false) ∧
    getLatest (notification_handler [0xFF, 0x03] none stW).1 = getLatest stW :=
  short_frame_only_signals [0xFF, 0x03] none stW (by decide)

/-- C6: the handler sets the response-ready signal on every frame, and a
long frame that fails to decode is discarded atomically — the latest record
is unchanged and nothing is published, while the signal is still set. -/
theorem decode_failure_discards_frame (data : List ℕ) (rssi : Option ℤ)
    (st : CoordState) :
    ((notification_handler data rssi st).1.notifEvent = true) ∧
    (23 ≤ data.length → ∀ e, parse_mppt_packet data = .error e →
      notification_handler data rssi st = ({ st with notifEvent := true }, false)) := by
  constructor
  · by_cases h : data.length < 23
    · simp [notification_handler, h]
    · cases hp : parse_mppt_packet data <;> simp [notification_handler, h, hp]
  · intro hlen e he
    have h : ¬ data.length < 23 := by omega
    simp [notification_handler, h, he]

/-- C6 witness: the literal 23-byte buffer reaches the decoder (length
≥ 23) and fails there (length < 46); the frame is dropped and the signal
set. -/
theorem decode_failure_discards_frame_witness :
    ((notification_handler lit23 none stW).1.notifEvent = true) ∧
    notification_handler lit23 none stW = ({ stW with notifEvent := true }, false) :=
  ⟨(decode_failure_discards_frame lit23 none stW).1,
   (decode_failure_discards_frame lit23 none stW).2 (by decide)
     (ParseError.tooShort 46 23) rfl⟩

/-- C8 counterexample: a 46-byte buffer whose temperature byte has the high
bit set (0x80) decodes to battery temperature +128.0, not to any negative
value — the byte is read unsigned. -/
theorem temp_high_bit_decodes_positive :
    parse_mppt_packet tempHighBuf = Except.ok tempHighRec ∧
    tempHighRec.battery_temperature = 128 ∧
    ¬ tempHighRec.battery_temperature < 0 :=
  ⟨parse_tempHighBuf, rfl, by norm_num [tempHighRec]⟩

/-- C8 amended: the battery temperature is decoded from the single byte at
offset 10, unscaled and unsigned, so every decoded record has a nonnegative
battery temperature. -/
theorem battery_temperature_unsigned (data : List ℕ) (r : ParsedData)
    (h : parse_mppt_packet data = Except.ok r) :
    r.battery_temperature = (pyIndex data 10 : ℚ) ∧ 0 ≤ r.battery_temperature := by
  by_cases hl : data.length < MIN_DATA_LENGTH
  · rw [parse_mppt_packet, if_pos hl] at h
    exact absurd h (by simp)
  · rw [parse_mppt_packet_long data (by omega)] at h
    cases h
    exact ⟨rfl, by positivity⟩

/-- C8 witness: the high-bit buffer instantiates the amended claim. -/
theorem battery_temperature_unsigned_witness :
    tempHighRec.battery_temperature = (pyIndex tempHighBuf 10 : ℚ) ∧
    0 ≤ tempHighRec.battery_temperature :=
  battery_temperature_unsigned tempHighBuf tempHighRec parse_tempHighBuf

/-- A refresh cycle that connects and subscribes but never sees a frame
returns `None` without touching `_latest_data`, and ends holding the
freshly connected client. -/
lemma reconnectAndFetch_silent (env : CycleEnv) (st : CoordState)
    (hco : env.connectOk = true) (hn : env.notifyCharFound = true)
    (htr : ∀ f ∈ env.triggerFrames, f = none)
    (hre : env.readFrames = []) (hfi : env.finalFrame = none) :
    (reconnectAndFetch env st).1 = .ok none ∧
    (reconnectAndFetch env st).2.latest = st.latest ∧
    (reconnectAndFetch env st).2.client =
      some { id := env.newClientId, connected := true } := by
  simp only [reconnectAndFetch, hco, hn, hre, hfi]
  cases hw : env.writeCharFound
  · simp [readLoop]
  · rcases hT : triggerLoop env.rssi env.triggerFrames
      { client := some { id := env.newClientId, connected := true },
        latest := st.latest, notifEvent := st.notifEvent } with ⟨r1, st3⟩
    have hN := triggerLoop_all_none env.rssi env.triggerFrames
      { client := some { id := env.newClientId, connected := true },
        latest := st.latest, notifEvent := st.notifEvent } htr
    rw [hT] at hN
    obtain ⟨h1, h2, h3⟩ := hN
    subst h1
    simp at h2 h3
    simp [readLoop, h2, h3]

/-- C3: a cycle that cannot locate the device raises the update failure; a
cycle whose connect attempt fails, and a cycle that connects but sees no
frame within any timeout, both return `None` without a hard failure and
leave the previously published latest record unchanged, so `getLatest`
still answers the previous record. -/
theorem scheduler_failure_taxonomy (env : CycleEnv) (st : CoordState) :
    (env.deviceFound = false →
      async_update_data env st = (.error .deviceNotFound, st)) ∧
    (env.deviceFound = true → st.client = none → env.connectOk = false →
      (async_update_data env st).1 = .ok none ∧
      getLatest (async_update_data env st).2 = getLatest st) ∧
    (env.deviceFound = true → st.client = none → env.connectOk = true →
      env.notifyCharFound = true → (∀ f ∈ env.triggerFrames, f = none) →
      env.readFrames = [] → env.finalFrame = none →
      (async_update_data env st).1 = .ok none ∧
      getLatest (async_update_data env st).2 = getLatest st) := by
  refine ⟨?_, ?_, ?_⟩
  · intro h
    simp [async_update_data, h]
  · intro hf hc hco
    simp [async_update_data, reconnectAndFetch, hf, hc, hco, getLatest]
  · intro hf hc hco hn htr hre hfi
    have hR := reconnectAndFetch_silent env st hco hn htr hre hfi
    simp [async_update_data, hf, hc, getLatest, hR.1, hR.2.1]

/-- C3 witness: the three outcomes at concrete environments, on a state
holding a previous record. -/
theorem scheduler_failure_taxonomy_witness :
    async_update_data envNotFound stW = (.error .deviceNotFound, stW) ∧
    ((async_update_data envConnectFail stW).1 = .ok none ∧
      getLatest (async_update_data envConnectFail stW).2 = getLatest stW) ∧
    ((async_update_data envSilent stW).1 = .ok none ∧
      getLatest (async_update_data envSilent stW).2 = getLatest stW) :=
  ⟨(scheduler_failure_taxonomy envNotFound stW).1 rfl,
   (scheduler_failure_taxonomy envConnectFail stW).2.1 rfl rfl rfl,
   (scheduler_failure_taxonomy envSilent stW).2.2 rfl rfl rfl rfl (by decide) rfl rfl⟩

/-- C7: a cycle that connects and subscribes but never receives a frame
(all trigger waits, the readable sweep and the final wait silent) ends with
the NoData outcome — result `None`, no failure — and the freshly connected
client is kept in `_client`, still connected, for the next cycle. -/
theorem nodata_keeps_connection (env : CycleEnv) (st : CoordState)
    (hf : env.deviceFound = true) (hc : st.client = none)
    (hco : env.connectOk = true) (hn : env.notifyCharFound = true)
    (htr : ∀ f ∈ env.triggerFrames, f = none)
    (hre : env.readFrames = []) (hfi : env.finalFrame = none) :
    (async_update_data env st).1 = .ok none ∧
    (async_update_data env st).2.client =
      some { id := env.newClientId, connected := true } := by
  have hR := reconnectAndFetch_silent env st hco hn htr hre hfi
  simp [async_update_data, hf, hc, hR.1, hR.2.2]

/-- C7 witness: the silent environment keeps its client (id 2) connected. -/
theorem nodata_keeps_connection_witness :
    (async_update_data envSilent stW).1 = .ok none ∧
    (async_update_data envSilent stW).2.client =
      some { id := 2, connected := true } :=
  nodata_keeps_connection envSilent stW rfl rfl rfl rfl (by decide) rfl rfl

/-- C10: the source writes the trigger command (line 333) before clearing
the response-ready signal (line 336), so a frame delivered between the
write and the clear leaves the signal cleared at wait-entry — the frame is
lost and the wait blocks until timeout; only a frame delivered after the
clear is still visible at wait-entry.  This contradicts the claim that any
frame delivered before wait-entry leaves the signal set. -/
theorem frame_before_wait_can_be_lost :
    signalAtWaitEntry false 1 = false ∧ signalAtWaitEntry false 2 = true :=
  ⟨rfl, rfl⟩

end VevorMPPT
